import Mathlib

/-!
Verification of `news_bot.py` (slack-news-bot): a shallow embedding of the
fetch → format → send pipeline, with the ambient effects (the network of RSS
feeds, the webhook endpoint, the clock, the environment variable) passed as
explicit parameters.
-/

namespace NewsBot

/-- One feed entry as `feedparser` presents it: each of the fields that
`news_bot.py` reads via `entry.get(...)` may be absent. -/
structure Entry where
  title : Option String
  link : Option String
  published : Option String
deriving DecidableEq, Repr

/-- One parsed feed: `feed.feed.get('title', ...)` may be absent, and
`feed.entries` is the declared-order entry list. -/
structure Feed where
  title : Option String
  entries : List Entry
deriving DecidableEq, Repr

/-- The article dict built in `fetch_news` (news_bot.py lines 45-50). -/
structure Article where
  title : String
  link : String
  source : String
  published : String
deriving DecidableEq, Repr

/-- Outcome of one `feedparser.parse(feed_url)` call: either a parsed feed or
an exception (the `except Exception` branch of `fetch_news`). -/
inductive FetchOutcome where
  | ok (feed : Feed)
  | err (msg : String)
deriving DecidableEq, Repr

/-- The network of feeds, as a function from URL to fetch outcome. -/
abbrev Network := String → FetchOutcome

/-- Source name resolution, news_bot.py line 41:
`feed.feed.get('title', 'Unknown Source')`. -/
def sourceNameOf (f : Feed) : String :=
  f.title.getD "Unknown Source"

/-- The article dict built per entry, news_bot.py lines 45-50: `title`,
`link` and `published` fall back to `'No title'`, `''` and `'Unknown date'`. -/
def mkArticle (sourceName : String) (e : Entry) : Article where
  title := e.title.getD "No title"
  link := e.link.getD ""
  source := sourceName
  published := e.published.getD "Unknown date"

/-- The articles one URL contributes inside the `for feed_url` loop of
`fetch_news` (news_bot.py lines 36-56): on an exception the URL is skipped
(`continue`), otherwise the first `max_articles` entries
(`feed.entries[:max_articles]`) are turned into article dicts in order. -/
def perUrlArticles (net : Network) (cap : Nat) (url : String) : List Article :=
  match net url with
  | .err _ => []
  | .ok f => (f.entries.take cap).map (mkArticle (sourceNameOf f))

/-- news_bot.py lines 31-58, `fetch_news(feed_urls, max_articles)`: iterate
the URLs in order, appending each URL's articles to the accumulator. -/
def fetch_news (net : Network) (feed_urls : List String) (max_articles : Nat) :
    List Article :=
  feed_urls.foldl (fun articles url => articles ++ perUrlArticles net max_articles url) []

/-- news_bot.py lines 18-29: the static category → feed URLs configuration,
in declaration order. -/
def RSS_FEEDS : List (String × List String) :=
  [("Banking & Lending",
      ["https://www.americanbanker.com/feed", "https://www.housingwire.com/feed/"]),
   ("Salesforce", ["https://www.salesforceben.com/feed/"]),
   ("Python & Tech", ["https://realpython.com/atom.xml"])]

/-- The clock, supplying the two formatted `datetime.now().strftime(...)`
strings used by `format_briefing`. -/
structure Clock where
  dateStr : String
  timeStr : String
deriving DecidableEq, Repr

/-- Concatenation of a list of strings in order (the `message += ...`
accumulation, factored). -/
def concatAll : List String → String
  | [] => ""
  | s :: rest => s ++ concatAll rest

/-- news_bot.py line 63: the briefing header. -/
def headerLine (c : Clock) : String :=
  "📰 *Morning Briefing - " ++ c.dateStr ++ "*\n\n"

/-- news_bot.py lines 85-86: the footer (separator line, then the total
article count and generation time). -/
def footerLines (c : Clock) (total : Nat) : String :=
  "─────────────────────\n" ++ "📊 Total articles: " ++ toString total
    ++ " | ⏰ Generated at " ++ c.timeStr

/-- news_bot.py lines 78-79: the two lines appended per article. -/
def articleBlock (a : Article) : String :=
  "• *" ++ a.title ++ "*\n" ++ "  <" ++ a.link ++ "|Read more> · _" ++ a.source ++ "_\n\n"

/-- news_bot.py lines 73-82: what one category appends to the message — the
heading, one block per article, and a trailing newline when the category has
articles; nothing at all when it has none. -/
def categoryBlock (category : String) (arts : List Article) : String :=
  if arts.isEmpty then ""
  else "*━━━ " ++ category.toUpper ++ " ━━━*\n" ++ concatAll (arts.map articleBlock) ++ "\n"

/-- One iteration of the `for category, feeds in RSS_FEEDS.items()` loop of
`format_briefing`, acting on the (message suffix, total_articles) pair: an
empty category changes nothing; otherwise its block is appended and the total
grows by one per article. -/
def briefingStep (acc : String × Nat) (cf : String × List Article) : String × Nat :=
  if cf.2.isEmpty then acc
  else (acc.1 ++ categoryBlock cf.1 cf.2, acc.2 + cf.2.length)

/-- The whole category loop of `format_briefing` (news_bot.py lines 65-82),
starting from the empty message suffix and `total_articles = 0`. -/
def briefingLoop (cats : List (String × List Article)) : String × Nat :=
  cats.foldl briefingStep ("", 0)

/-- `format_briefing` as a function of the per-category fetch results:
header, then the category loop's output, then the footer carrying the loop's
`total_articles` (news_bot.py lines 60-90). -/
def format_briefing_pure (c : Clock) (cats : List (String × List Article)) : String :=
  headerLine c ++ (briefingLoop cats).1 ++ footerLines c (briefingLoop cats).2

/-- news_bot.py lines 60-90, `format_briefing()`: run the category loop over
`RSS_FEEDS`, fetching each category's feeds with `fetch_news(feeds, 3)`. -/
def format_briefing (net : Network) (c : Clock) : String :=
  format_briefing_pure c (RSS_FEEDS.map fun cf => (cf.1, fetch_news net cf.2 3))

/-- Outcome of the `requests.post` call in `send_to_slack`: a response with a
status code and body, or a raised exception. -/
inductive PostOutcome where
  | resp (status : Nat) (body : String)
  | exc (msg : String)
deriving DecidableEq, Repr

/-- The webhook endpoint, as a function from posted message to outcome. -/
abbrev Webhook := String → PostOutcome

/-- Whether a post outcome is an HTTP 200 response. -/
def isStatus200 : PostOutcome → Bool
  | .resp s _ => s == 200
  | .exc _ => false

/-- news_bot.py lines 92-124, `send_to_slack(message)`: `none` models
`sys.exit(1)` on a missing `SLACK_WEBHOOK_URL` (no POST is made); otherwise
one POST is made and `some true` is returned exactly on status 200, with any
other status or an exception yielding `some false`. -/
def send_to_slack (webhookUrl : Option String) (post : Webhook) (message : String) :
    Option Bool :=
  match webhookUrl with
  | none => none
  | some _ =>
    match post message with
    | .resp s _ => if s == 200 then some true else some false
    | .exc _ => some false

/-- Observable behaviour of one run of `main`: which feed URLs had a fetch
attempted, which messages were POSTed to the webhook, and the process exit
code. -/
structure Trace where
  fetched : List String
  posted : List String
  exitCode : Nat
deriving DecidableEq, Repr

/-- Every feed URL of `RSS_FEEDS`, in processing order: `format_briefing`
attempts a `feedparser.parse` for each of these on every run, whether or not
the fetch succeeds. -/
def attemptedUrls : List String :=
  (RSS_FEEDS.map Prod.snd).flatten

/-- news_bot.py lines 126-147, `main()`: build the briefing (fetching every
URL of `RSS_FEEDS`), then call `send_to_slack`. If that call hit the missing
webhook check it exits 1 with no POST; otherwise exactly one POST was made
and the exit code is 0 on success, 1 on failure. -/
def main_run (webhookUrl : Option String) (net : Network) (post : Webhook) (c : Clock) :
    Trace :=
  match send_to_slack webhookUrl post (format_briefing net c) with
  | none => { fetched := attemptedUrls, posted := [], exitCode := 1 }
  | some true =>
      { fetched := attemptedUrls, posted := [format_briefing net c], exitCode := 0 }
  | some false =>
      { fetched := attemptedUrls, posted := [format_briefing net c], exitCode := 1 }

/-- All articles that the category loop emits a block for: the articles of
every category, in order (empty categories contribute nothing either way). -/
def emittedArticles (cats : List (String × List Article)) : List Article :=
  (cats.map Prod.snd).flatten

/-- A network on which every fetch raises. -/
def netDown : Network := fun _ => .err "unreachable"

/-- A webhook that always answers 200. -/
def postOk : Webhook := fun _ => .resp 200 "ok"

/-- A fixed clock value. -/
def clock0 : Clock := { dateStr := "January 01, 2026", timeStr := "06:00 AM EST" }

/-- An entry with every field present. -/
def entryFull : Entry := { title := some "T", link := some "L", published := some "P" }

/-- A feed with five entries (more than the cap of 3). -/
def feedBig : Feed :=
  { title := some "Big Feed",
    entries := [entryFull, entryFull, entryFull, entryFull, entryFull] }

/-- A network on which every URL yields `feedBig`. -/
def netBig : Network := fun _ => .ok feedBig

/-- A feed that parses but has no entries. -/
def feedNoEntries : Feed := { title := some "Quiet Feed", entries := [] }

/-- A network on which every URL yields the entry-less feed. -/
def netQuiet : Network := fun _ => .ok feedNoEntries

/-- A network on which exactly the URL "bad" fails. -/
def netOneBad : Network := fun v => if v == "bad" then .err "boom" else .ok feedBig

/-- A sample article. -/
def artSample : Article := mkArticle "SampleSrc" entryFull

/-- The `for feed_url` loop of `fetch_news` appends each URL's contribution in
order, so the result is the ordered concatenation of the per-URL article
lists. -/
theorem fetch_news_eq (net : Network) (urls : List String) (cap : Nat) :
    fetch_news net urls cap = (urls.map (perUrlArticles net cap)).flatten := by
  have go : ∀ (l : List String) (acc : List Article),
      l.foldl (fun a u => a ++ perUrlArticles net cap u) acc
        = acc ++ (l.map (perUrlArticles net cap)).flatten := by
    intro l
    induction l with
    | nil => intro acc; simp
    | cons u rest ih => intro acc; simp [ih]
  simpa [fetch_news] using go urls []

/-- One loop iteration appends exactly the category's block and adds exactly
its article count, in both the empty and the non-empty case. -/
theorem briefingStep_eq (acc : String × Nat) (cf : String × List Article) :
    briefingStep acc cf = (acc.1 ++ categoryBlock cf.1 cf.2, acc.2 + cf.2.length) := by
  unfold briefingStep categoryBlock
  cases h : cf.2.isEmpty with
  | true =>
    have hnil : cf.2 = [] := List.isEmpty_iff.mp h
    simp [h, hnil]
  | false => simp [h]

/-- The category loop produces the concatenation of the per-category blocks
and the sum of the per-category article counts. -/
theorem briefingLoop_eq (cats : List (String × List Article)) :
    briefingLoop cats
      = (concatAll (cats.map fun cf => categoryBlock cf.1 cf.2),
         (cats.map fun cf => cf.2.length).sum) := by
  have go : ∀ (l : List (String × List Article)) (s : String) (n : Nat),
      l.foldl briefingStep (s, n)
        = (s ++ concatAll (l.map fun cf => categoryBlock cf.1 cf.2),
           n + (l.map fun cf => cf.2.length).sum) := by
    intro l
    induction l with
    | nil => intro s n; simp [concatAll]
    | cons cf rest ih =>
      intro s n
      rw [List.foldl_cons, briefingStep_eq, ih]
      simp [concatAll, String.append_assoc, Nat.add_assoc]
  simpa [briefingLoop] using go cats "" 0

/-- With the webhook configured, `send_to_slack` returns the boolean
"the POST answered 200". -/
theorem send_to_slack_some (url : String) (post : Webhook) (m : String) :
    send_to_slack (some url) post m = some (isStatus200 (post m)) := by
  unfold send_to_slack
  cases hp : post m with
  | resp s b => cases hs : s == 200 <;> simp [isStatus200, hs]
  | exc msg => simp [isStatus200]

/-- With the webhook configured, `main` POSTs exactly the briefing once and
exits 0 or 1 according to the POST outcome. -/
theorem main_run_some_eq (w : String) (net : Network) (post : Webhook) (c : Clock) :
    (main_run (some w) net post c).posted = [format_briefing net c]
    ∧ (main_run (some w) net post c).exitCode
        = (if isStatus200 (post (format_briefing net c)) = true then 0 else 1) := by
  unfold main_run send_to_slack
  cases hp : post (format_briefing net c) with
  | resp s b => cases hs : s == 200 <;> simp [isStatus200, hs]
  | exc msg => simp [isStatus200]

/-- C1 (counterexample): with the webhook configuration absent, it is not the
case that the run both exits non-zero and performs zero network calls — on a
concrete run the feed-fetch list is non-empty, because `main` builds the
briefing (fetching every configured feed URL) before `send_to_slack` checks
the webhook variable. -/
theorem C1_counterexample :
    ¬ ((main_run none netDown postOk clock0).exitCode ≠ 0
        ∧ (main_run none netDown postOk clock0).fetched = []
        ∧ (main_run none netDown postOk clock0).posted = []) := by
  intro h
  have hf : attemptedUrls = [] := h.2.1
  exact absurd hf (by decide)

/-- C1 (amended): if the webhook URL configuration is absent, the process
terminates with exit code 1 and no webhook POST is attempted; the feed
fetches, however, are still performed, since the briefing is built before the
configuration check. -/
theorem C1_missing_webhook_behaviour (net : Network) (post : Webhook) (c : Clock) :
    (main_run none net post c).exitCode = 1
    ∧ (main_run none net post c).posted = []
    ∧ (main_run none net post c).fetched = attemptedUrls :=
  ⟨rfl, rfl, rfl⟩

/-- C2: for every network, URL list and positive cap, `fetch_news` is the
ordered concatenation of per-URL contributions (URLs in the order given,
entries in feed order), each contribution has at most `cap` articles, a feed
with at most `cap` entries contributes all of its entries, and a feed with no
entries contributes none. -/
theorem C2_fetch_cap_and_order (net : Network) (urls : List String) (cap : Nat)
    (u : String) (f : Feed) (hcap : 0 < cap) (hu : net u = .ok f) :
    fetch_news net urls cap = (urls.map (perUrlArticles net cap)).flatten
    ∧ (perUrlArticles net cap u).length ≤ cap
    ∧ (f.entries.length ≤ cap →
        perUrlArticles net cap u = f.entries.map (mkArticle (sourceNameOf f)))
    ∧ (f.entries = [] → perUrlArticles net cap u = []) := by
  refine ⟨fetch_news_eq net urls cap, ?_, ?_, ?_⟩
  · simp [perUrlArticles, hu]
  · intro hle
    simp [perUrlArticles, hu, List.take_of_length_le hle]
  · intro hnil
    simp [perUrlArticles, hu, hnil]

/-- C2 witness: at cap 3 with a 5-entry feed the contribution has length at
most 3, and with an entry-less feed the contribution is empty. -/
theorem C2_witness :
    0 < 3
    ∧ fetch_news netBig ["u"] 3 = (["u"].map (perUrlArticles netBig 3)).flatten
    ∧ (perUrlArticles netBig 3 "u").length ≤ 3
    ∧ perUrlArticles netQuiet 3 "v" = [] := by
  have hb := C2_fetch_cap_and_order netBig ["u"] 3 "u" feedBig (by decide) rfl
  have hq := C2_fetch_cap_and_order netQuiet ["v"] 3 "v" feedNoEntries (by decide) rfl
  exact ⟨by decide, hb.1, hb.2.1, hq.2.2.2 rfl⟩

/-- C3: if fetching one URL fails, that URL contributes no articles and the
whole fetch equals the concatenated contributions of the remaining URLs,
unaffected; the failure is absorbed inside `fetch_news`, which still returns
an article list. -/
theorem C3_failed_url_skipped (net : Network) (urls : List String) (cap : Nat)
    (u e : String) (hfail : net u = .err e) :
    perUrlArticles net cap u = []
    ∧ fetch_news net urls cap
        = ((urls.filter fun v => v != u).map (perUrlArticles net cap)).flatten := by
  have hskip : perUrlArticles net cap u = [] := by simp [perUrlArticles, hfail]
  refine ⟨hskip, ?_⟩
  rw [fetch_news_eq]
  induction urls with
  | nil => rfl
  | cons v rest ih =>
    by_cases hv : v = u
    · subst hv
      simp [hskip, ih, List.filter_cons]
    · simp [List.filter_cons, hv, ih]

/-- C3 witness: on a network where exactly "bad" fails, the failing URL
contributes nothing and the fetch equals the good URLs' contributions. -/
theorem C3_witness :
    perUrlArticles netOneBad 3 "bad" = []
    ∧ fetch_news netOneBad ["good", "bad"] 3
        = ((["good", "bad"].filter fun v => v != "bad").map
            (perUrlArticles netOneBad 3)).flatten :=
  C3_failed_url_skipped netOneBad ["good", "bad"] 3 "bad" "boom" (by decide)

/-- C4: the `total_articles` value the loop hands to the footer equals the
number of article blocks emitted across all categories, and the whole message
is header, then the per-category blocks, then the footer carrying exactly the
count of emitted articles. -/
theorem C4_footer_total_matches_blocks (c : Clock) (cats : List (String × List Article)) :
    (briefingLoop cats).2 = ((emittedArticles cats).map articleBlock).length
    ∧ format_briefing_pure c cats
        = headerLine c ++ concatAll (cats.map fun cf => categoryBlock cf.1 cf.2)
          ++ footerLines c (emittedArticles cats).length := by
  have hlen : (cats.map fun cf => cf.2.length).sum = (emittedArticles cats).length := by
    simp only [emittedArticles, List.length_flatten, List.map_map, Function.comp_def]
  constructor
  · rw [briefingLoop_eq]
    simpa using hlen
  · unfold format_briefing_pure
    rw [briefingLoop_eq, hlen]

/-- C5: with the webhook configured, `send_to_slack` reports success exactly
when the POST answers status 200 (any other status and any exception yield
failure), and `main` exits 0 exactly on reported success, 1 otherwise. -/
theorem C5_delivery_success_iff_200 (url m : String) (post : Webhook) (net : Network)
    (c : Clock) :
    send_to_slack (some url) post m = some (isStatus200 (post m))
    ∧ ((main_run (some url) net post c).exitCode = 0
        ↔ isStatus200 (post (format_briefing net c)) = true)
    ∧ (main_run (some url) net post c).exitCode
        = (if isStatus200 (post (format_briefing net c)) = true then 0 else 1) := by
  have hmain := main_run_some_eq url net post c
  refine ⟨send_to_slack_some url post m, ?_, hmain.2⟩
  rw [hmain.2]
  cases h : isStatus200 (post (format_briefing net c)) <;> simp

/-- C6: if every configured feed URL contributes zero articles, the briefing
is exactly the header followed by the footer with total 0, and `main` (with
the webhook configured) still POSTs exactly that message. -/
theorem C6_all_feeds_empty (w : String) (net : Network) (post : Webhook) (c : Clock)
    (h : ∀ u ∈ attemptedUrls, perUrlArticles net 3 u = []) :
    format_briefing net c = headerLine c ++ footerLines c 0
    ∧ (main_run (some w) net post c).posted = [headerLine c ++ footerLines c 0] := by
  have h1 := h "https://www.americanbanker.com/feed" (by decide)
  have h2 := h "https://www.housingwire.com/feed/" (by decide)
  have h3 := h "https://www.salesforceben.com/feed/" (by decide)
  have h4 := h "https://realpython.com/atom.xml" (by decide)
  have hfmt : format_briefing net c = headerLine c ++ footerLines c 0 := by
    unfold format_briefing format_briefing_pure RSS_FEEDS
    simp [fetch_news, h1, h2, h3, h4, briefingLoop, briefingStep]
  exact ⟨hfmt, by rw [(main_run_some_eq w net post c).1, hfmt]⟩

/-- C6 witness: on a network where every fetch fails, the briefing is header
plus zero-count footer and is still POSTed. -/
theorem C6_witness :
    format_briefing netDown clock0 = headerLine clock0 ++ footerLines clock0 0
    ∧ (main_run (some "hook") netDown postOk clock0).posted
        = [headerLine clock0 ++ footerLines clock0 0] :=
  C6_all_feeds_empty "hook" netDown postOk clock0 (fun u _ => rfl)

/-- C7: a category with no articles contributes nothing to the message — no
heading and no empty-section marker — while a category with at least one
article contributes its heading followed by its article blocks; the loop's
body is exactly the concatenation of these per-category contributions. -/
theorem C7_empty_category_omitted (cats : List (String × List Article))
    (name : String) (arts : List Article) (h : arts ≠ []) :
    categoryBlock name [] = ""
    ∧ (briefingLoop cats).1 = concatAll (cats.map fun cf => categoryBlock cf.1 cf.2)
    ∧ categoryBlock name arts
        = "*━━━ " ++ name.toUpper ++ " ━━━*\n" ++ concatAll (arts.map articleBlock) ++ "\n" := by
  refine ⟨rfl, by rw [briefingLoop_eq], ?_⟩
  have hne : arts.isEmpty = false := by simpa [List.isEmpty_iff] using h
  simp [categoryBlock, hne]

/-- C7 witness: concretely, the empty category emits nothing and a one-article
category emits its heading and block. -/
theorem C7_witness :
    [artSample] ≠ ([] : List Article)
    ∧ categoryBlock "Tech" [] = ""
    ∧ (briefingLoop []).1
        = concatAll (([] : List (String × List Article)).map fun cf => categoryBlock cf.1 cf.2)
    ∧ categoryBlock "Tech" [artSample]
        = "*━━━ " ++ "Tech".toUpper ++ " ━━━*\n" ++ concatAll ([artSample].map articleBlock) ++ "\n" := by
  have hc := C7_empty_category_omitted [] "Tech" [artSample] (by decide)
  exact ⟨by decide, hc.1, hc.2.1, hc.2.2⟩

/-- C8: the source name is the feed's declared title when present and the
placeholder "Unknown Source" otherwise; each of title, link and published
falls back independently to its fixed placeholder ("No title", the empty
string, "Unknown date") when absent from the entry; and the articles built
from a fetched feed are exactly the capped entries passed through this
resolution. -/
theorem C8_field_fallbacks (t l p s : String) (es : List Entry) (f : Feed)
    (u : String) (cap : Nat) :
    sourceNameOf { title := none, entries := es } = "Unknown Source"
    ∧ sourceNameOf { title := some t, entries := es } = t
    ∧ mkArticle s { title := none, link := none, published := none }
        = { title := "No title", link := "", source := s, published := "Unknown date" }
    ∧ mkArticle s { title := some t, link := none, published := some p }
        = { title := t, link := "", source := s, published := p }
    ∧ mkArticle s { title := some t, link := some l, published := some p }
        = { title := t, link := l, source := s, published := p }
    ∧ perUrlArticles (fun _ => .ok f) cap u
        = (f.entries.take cap).map (mkArticle (sourceNameOf f)) :=
  ⟨rfl, rfl, rfl, rfl, rfl, rfl⟩

/-- C9: formatting is deterministic — two runs with the same clock whose
networks agree on every configured feed URL produce byte-identical briefing
strings. -/
theorem C9_formatting_deterministic (net1 net2 : Network) (c1 c2 : Clock)
    (hc : c1 = c2) (hnet : ∀ u ∈ attemptedUrls, net1 u = net2 u) :
    format_briefing net1 c1 = format_briefing net2 c2 := by
  subst hc
  have h1 := hnet "https://www.americanbanker.com/feed" (by decide)
  have h2 := hnet "https://www.housingwire.com/feed/" (by decide)
  have h3 := hnet "https://www.salesforceben.com/feed/" (by decide)
  have h4 := hnet "https://realpython.com/atom.xml" (by decide)
  have hcats : (RSS_FEEDS.map fun cf => (cf.1, fetch_news net1 cf.2 3))
      = (RSS_FEEDS.map fun cf => (cf.1, fetch_news net2 cf.2 3)) := by
    unfold RSS_FEEDS
    simp [fetch_news, perUrlArticles, h1, h2, h3, h4]
  unfold format_briefing
  rw [hcats]

/-- C9 witness: two identical runs on a concrete network and clock agree. -/
theorem C9_witness :
    format_briefing netDown clock0 = format_briefing netDown clock0 :=
  C9_formatting_deterministic netDown netDown clock0 clock0 rfl (fun u _ => rfl)

/-- C10: `fetch_news` is total — on the empty URL list (excluded by the
spec's precondition) it returns the empty article list, and on every input it
returns the ordered concatenation of per-URL contributions, every per-URL
failure having been absorbed into an empty contribution rather than an
exception. -/
theorem C10_fetch_total (net : Network) (cap : Nat) (urls : List String) :
    fetch_news net [] cap = []
    ∧ fetch_news net urls cap = (urls.map (perUrlArticles net cap)).flatten :=
  ⟨rfl, fetch_news_eq net urls cap⟩

end NewsBot
